import Mathlib

/-!
Verification development for the Unified API orchestrator of the
anonymous-intent SDK (source file UnifiedAPIService.py under
src/universal-anon/unified-api/).

Modelling conventions
=====================
External collaborators (the DynamoDB tables, the Kinesis stream, the
Redis-cache Lambda, and the three ML services) are accessed by the
orchestrator only through narrow calls whose outcomes depend on external
state.  Each request is therefore embedded as a pure function of an
environment record that fixes the response (or the raised exception) of
every collaborator call the request can make.  Every orchestrator-side
computation that sits between those calls is translated from the Python
source.

Each request additionally returns a trace: the list of collaborator
invocations it performed, in program order.  A label is appended to the
trace exactly when the corresponding call site in the source is reached,
whether or not the call then fails.

Python dictionaries carrying numeric payloads (feature maps, intent
scores, metrics) are modelled as association lists with rational values;
Python truthiness of a dict is emptiness of the list, truthiness of an
optional string is presence of a non-empty string.  Exceptions raised by
a collaborator are modelled with Except or with boolean failure flags;
flags for calls whose failure the source swallows without reading any
value (Kinesis put_record, session caching, model provisioning) are
carried in the environment so that theorems can quantify over them.
-/

namespace UnifiedAPI

/-- Numeric payload dictionary, as carried around by the Python source. -/
abbrev Dict := List (String × Rat)

/-- Python d.get(k): first binding of the key, if any. -/
def dlookup (d : Dict) (k : String) : Option Rat :=
  (d.find? (fun p => p.1 == k)).map (fun p => p.2)

/-- Python truthiness of an optional string value: present and non-empty. -/
def truthyStr (s : Option String) : Bool :=
  match s with
  | some v => v != ""
  | none => false

/-- Source class APIKeyStatus. -/
inductive APIKeyStatus
  | active
  | inactive
  | suspended
  | trial
deriving DecidableEq, Repr

/-- Source dataclass APIKeyInfo (the tenant record). -/
structure APIKeyInfo where
  api_key : String
  customer_id : String
  status : APIKeyStatus
  plan_type : String
  created_at : String
  rate_limit : Nat
  features_enabled : List String
  metadata : List (String × String) := []
deriving DecidableEq, Repr

/-- Source dataclass EventProcessingResult. -/
structure EventProcessingResult where
  success : Bool
  anon_id : String
  session_id : String
  features_extracted : Dict
  cluster_assignment : Dict
  intent_scores : Dict
  real_time_metrics : Dict
  processing_time_ms : Nat
  error : Option String := none
deriving DecidableEq, Repr

/-- The keys of the incoming event payload that the orchestrator reads.
A field is none when the key is absent from the payload. -/
structure EventData where
  eventId : Option String := none
  eventName : Option String := none
  anonId : Option String := none
  sessionId : Option String := none
  platform : Option String := none
deriving DecidableEq, Repr

/-- Outcome of the get_metrics cache call made by _check_rate_limit.
err covers both an exception inside the call (the source catches it and
admits) and a malformed body whose JSON parse raises (same handler);
ok carries the statusCode of the parsed response and the total_events
entry of its metrics body, none when that key is absent (the source then
substitutes 0). -/
inductive RateMetricsRead
  | err
  | ok (statusCode : Nat) (totalEvents : Option Nat)
deriving DecidableEq, Repr

/-- The count that the rate-limit read yields, if any: a response with
statusCode 200 yields its total_events entry (0 when absent); an errored
call or a non-200 response yields no count. -/
def readCount (r : RateMetricsRead) : Option Nat :=
  match r with
  | .err => none
  | .ok sc te => if sc = 200 then some (te.getD 0) else none

/-- Source method _check_rate_limit: admit iff the read count is below
the limit, and admit whenever no count could be read. -/
def check_rate_limit (r : RateMetricsRead) (limit : Nat) : Bool :=
  match r with
  | .err => true
  | .ok sc te => if sc = 200 then decide (te.getD 0 < limit) else true

/-- Per-request environment: the outcome of every collaborator call a
process_event request can make.  validateResult is the value
_validate_api_key_async produces (none for an unknown key, a cache and
store miss, or a lookup error, which the source all map to None);
existingModels is the outcome of _check_existing_models (a query error is
mapped to false by the source); the Fails and Raises flags model an
exception raised inside the corresponding call, which the source catches
locally; the three Except fields are the outcomes of the feature
extraction, clustering and intent scoring calls; elapsedMs is the wall
clock elapsed time the source measures for the request. -/
structure Env where
  validateResult : Option APIKeyInfo
  metricsRead : RateMetricsRead
  existingModels : Bool
  provisionClusteringFails : Bool
  provisionIntentFails : Bool
  ingestFails : Bool
  cacheSessionFails : Bool
  featuresResult : Except String Dict
  clusterResult : Except String Dict
  intentResult : Except String Dict
  updateMetricsRaises : Bool
  elapsedMs : Nat
deriving Repr

/-- Collaborator call sites of a process_event request, in source order. -/
inductive CallLabel
  | validateKey
  | rateLimitRead
  | checkModels
  | provisionClustering
  | provisionIntent
  | streamAppend
  | cacheSession
  | featureExtract
  | clusterPredict
  | intentPredict
  | metricsUpdate
deriving DecidableEq, Repr

/-- The results dictionary returned by _process_with_ml_pipeline. -/
structure MLResults where
  features : Dict
  cluster : Dict
  intent_scores : Dict
deriving DecidableEq, Repr

/-- Source method _process_with_ml_pipeline.  The feature extraction
future is resolved first; only when it returned a non-empty feature dict
are the clustering and intent futures submitted, and then both branch
results are awaited in turn.  An exception from any of the three awaited
futures reaches the single handler of the method, which returns the
dictionary with all three entries empty.  The trace records which of the
three services were invoked. -/
def process_with_ml_pipeline (env : Env) : MLResults × List CallLabel :=
  match env.featuresResult with
  | .error _ => (⟨[], [], []⟩, [.featureExtract])
  | .ok features =>
    if features = [] then
      (⟨features, [], []⟩, [.featureExtract])
    else
      match env.clusterResult, env.intentResult with
      | .ok c, .ok i =>
        (⟨features, c, i⟩, [.featureExtract, .clusterPredict, .intentPredict])
      | _, _ =>
        (⟨[], [], []⟩, [.featureExtract, .clusterPredict, .intentPredict])

/-- Source method _auto_provision_models, reduced to its collaborator
trace: it always queries for existing models, and schedules the two
provisioning tasks only when none were found.  Failures of the
provisioning tasks are gathered with return_exceptions and then
discarded, so they leave no other footprint. -/
def auto_provision_models_trace (env : Env) : List CallLabel :=
  .checkModels ::
    (if env.existingModels then [] else [.provisionClustering, .provisionIntent])

/-- First maximal entry of a payload dictionary by value, as Python max
with a value key returns it (later entries replace only on a strictly
greater value). -/
def maxPairByValue (xs : List (String × Rat)) : Option (String × Rat) :=
  match xs with
  | [] => none
  | x :: rest => some (rest.foldl (fun best y => if best.2 < y.2 then y else best) x)

/-- The metrics dictionary _update_real_time_metrics builds from the
event payload and the ML results. -/
def build_metrics (ed : EventData) (ml : MLResults) : Dict :=
  ([("total_events", 1),
   ("unique_sessions", if truthyStr ed.sessionId then 1 else 0),
   ("unique_users", if truthyStr ed.anonId then 1 else 0),
   ("platform_" ++ ed.platform.getD "unknown", 1),
   ("event_" ++ ed.eventName.getD "unknown", 1)] : Dict)
  ++ ((match dlookup ml.cluster "cluster_id" with
      | some v => if v ≠ 0 then [("cluster_" ++ toString v, 1)] else []
      | none => []) : Dict)
  ++ ((if ml.intent_scores ≠ [] then
        match maxPairByValue ml.intent_scores with
        | some p => if p.1 ≠ "" then [("intent_" ++ p.1, 1)] else []
        | none => []
      else []) : Dict)

/-- Source method _update_real_time_metrics: on an exception while the
dictionary is being built, the handler returns the empty dictionary;
otherwise the built metrics are pushed to the cache and returned.  The
cache push itself swallows its own errors and returns no value. -/
def update_real_time_metrics (env : Env) (ed : EventData) (ml : MLResults) : Dict :=
  if env.updateMetricsRaises then [] else build_metrics ed ml

/-- The rejection result built at the API-key validation check. -/
def auth_fail_result (ed : EventData) : EventProcessingResult :=
  { success := false
    anon_id := ed.anonId.getD "unknown"
    session_id := ed.sessionId.getD "unknown"
    features_extracted := []
    cluster_assignment := []
    intent_scores := []
    real_time_metrics := []
    processing_time_ms := 0
    error := some "Invalid or inactive API key" }

/-- The rejection result built at the rate-limit check. -/
def rate_limit_fail_result (ed : EventData) : EventProcessingResult :=
  { success := false
    anon_id := ed.anonId.getD "unknown"
    session_id := ed.sessionId.getD "unknown"
    features_extracted := []
    cluster_assignment := []
    intent_scores := []
    real_time_metrics := []
    processing_time_ms := 0
    error := some "Rate limit exceeded" }

/-- Source method process_event, the top-level orchestrator: validate the
key, check the rate limit, provision models for trial tenants, append the
event to the stream, cache the session, run the ML pipeline, update the
metrics, and assemble the result.  The stream append and session cache
calls swallow their own failures, so only their trace labels appear. -/
def process_event (env : Env) (ed : EventData) :
    EventProcessingResult × List CallLabel :=
  match env.validateResult with
  | none => (auth_fail_result ed, [.validateKey])
  | some info =>
    if info.status = .active ∨ info.status = .trial then
      if check_rate_limit env.metricsRead info.rate_limit then
        let provT := if info.status = .trial then auto_provision_models_trace env else []
        let mlp := process_with_ml_pipeline env
        let metrics := update_real_time_metrics env ed mlp.1
        ({ success := true
           anon_id := ed.anonId.getD "unknown"
           session_id := ed.sessionId.getD "unknown"
           features_extracted := mlp.1.features
           cluster_assignment := mlp.1.cluster
           intent_scores := mlp.1.intent_scores
           real_time_metrics := metrics
           processing_time_ms := env.elapsedMs
           error := none },
         [.validateKey, .rateLimitRead] ++ provT
           ++ [.streamAppend, .cacheSession] ++ mlp.2 ++ [.metricsUpdate])
      else
        (rate_limit_fail_result ed, [.validateKey, .rateLimitRead])
    else
      (auth_fail_result ed, [.validateKey])

/-- The cluster-assignment record _get_user_cluster_info fetches for a
user: only the cluster_id entry (absent or zero is falsy) and the
is_outlier flag are read downstream. -/
structure ClusterInfo where
  cluster_id : Option Nat := none
  is_outlier : Bool := false
deriving DecidableEq, Repr

/-- The prediction record _get_user_intent_scores fetches for a user;
only its intent_scores entry is read downstream (absent key is the empty
dictionary). -/
structure PredictionData where
  intent_scores : Dict := []
deriving DecidableEq, Repr

/-- The insights dictionary _generate_user_insights builds. -/
structure Insights where
  behavioral_type : String
  engagement_level : String
  primary_intent : String
  recommendations : List String
deriving DecidableEq, Repr

/-- Source method _generate_user_insights, translated clause by clause:
behavioral type from a truthy cluster id, engagement level from the
engagement_score feature against the 0.7 and 0.3 thresholds, primary
intent as the first maximal intent score when any are present, and the
three conditional recommendations. -/
def generate_user_insights (features : Dict) (clusterInfo : ClusterInfo)
    (intentData : PredictionData) : Insights :=
  let behavioral :=
    match clusterInfo.cluster_id with
    | some cid => if cid ≠ 0 then "user_type_" ++ toString cid else "unknown"
    | none => "unknown"
  let engagement := (dlookup features "engagement_score").getD (1 / 2)
  let level :=
    if engagement > 7 / 10 then "high"
    else if engagement < 3 / 10 then "low"
    else "medium"
  let primary :=
    if intentData.intent_scores ≠ [] then
      match maxPairByValue intentData.intent_scores with
      | some p => p.1
      | none => "browse"
    else "browse"
  let recs :=
    (if engagement < 3 / 10 then ["Consider showing more engaging content"] else [])
    ++ (if (dlookup intentData.intent_scores "purchase_intent").getD 0 > 7 / 10 then
          ["High purchase intent - show relevant offers"] else [])
    ++ (if clusterInfo.is_outlier then ["Unusual behavior pattern detected"] else [])
  { behavioral_type := behavioral
    engagement_level := level
    primary_intent := primary
    recommendations := recs }

/-- The session summary dictionary produced by _get_user_session_summary;
its content is fetched and aggregated from storage, so it is carried
opaquely through the read path. -/
structure SessionSummary where
  total_sessions : Nat := 0
  avg_duration : Rat := 0
  total_duration : Rat := 0
deriving DecidableEq, Repr

/-- Environment of a get_user_insights request: the validation outcome
and the four gathered sub-results, each fetched from a collaborator
(each fetch maps its own errors to an empty value). -/
structure InsightsEnv where
  validateResult : Option APIKeyInfo
  userFeatures : Dict := []
  userClusterInfo : ClusterInfo := {}
  userIntentData : PredictionData := {}
  userSessionSummary : SessionSummary := {}
deriving Repr

/-- The dictionary returned by get_user_insights.  In the source the
rejection branch returns a dictionary holding only the error key; this
is modelled by the error field being set and every data field keeping
its empty default. -/
structure UserInsightsResult where
  error : Option String := none
  anon_id : String := ""
  time_window : String := ""
  user_features : Dict := []
  cluster_assignment : ClusterInfo := {}
  intent_scores : PredictionData := {}
  session_summary : SessionSummary := {}
  insights : Option Insights := none
deriving Repr

/-- Source method get_user_insights: resolve the key, reject when it
resolves to nothing (no status condition), otherwise gather the four
sub-results and merge them with the generated insights. -/
def get_user_insights (env : InsightsEnv) (anon_id : String)
    (time_window : String) : UserInsightsResult :=
  match env.validateResult with
  | none => { error := some "Invalid API key" }
  | some _ =>
    { error := none
      anon_id := anon_id
      time_window := time_window
      user_features := env.userFeatures
      cluster_assignment := env.userClusterInfo
      intent_scores := env.userIntentData
      session_summary := env.userSessionSummary
      insights := some (generate_user_insights env.userFeatures
        env.userClusterInfo env.userIntentData) }

/-- The response of the get_metrics cache call used by the dashboard
path; only its metrics entry is read by the platform breakdown. -/
structure CachedMetrics where
  metrics : Dict := []
deriving DecidableEq, Repr

/-- Source method _get_platform_breakdown, applied to the metrics entry
of the cached response: keep the keys starting with the platform tag and
strip that tag from them (the source strips every occurrence). -/
def get_platform_breakdown (metrics : Dict) : Dict :=
  (metrics.filter (fun p => p.1.startsWith "platform_")).map
    (fun p => (p.1.replace "platform_" "", p.2))

/-- Environment of a get_real_time_dashboard request: the validation
outcome and the fetched sub-results. -/
structure DashboardEnv where
  validateResult : Option APIKeyInfo
  cachedMetrics : CachedMetrics := {}
  clusterSummary : Dict := []
  intentDistribution : Dict := []
deriving Repr

/-- The dictionary returned by get_real_time_dashboard; the rejection
branch returns only the error key. -/
structure DashboardResult where
  error : Option String := none
  live_metrics : CachedMetrics := {}
  cluster_summary : Dict := []
  intent_distribution : Dict := []
  platform_breakdown : Dict := []
  status : Option String := none
deriving Repr

/-- Source method get_real_time_dashboard: resolve the key, reject when
it resolves to nothing (no status condition), otherwise assemble the
dashboard from the fetched sub-results. -/
def get_real_time_dashboard (env : DashboardEnv) : DashboardResult :=
  match env.validateResult with
  | none => { error := some "Invalid API key" }
  | some _ =>
    { error := none
      live_metrics := env.cachedMetrics
      cluster_summary := env.clusterSummary
      intent_distribution := env.intentDistribution
      platform_breakdown := get_platform_breakdown env.cachedMetrics.metrics
      status := some "active" }

/-- Last n characters of a string, as the Python slice takes them. -/
def lastChars (s : String) (n : Nat) : String :=
  String.mk (s.data.drop (s.data.length - n))

/-- Source method _generate_api_key.  The MD5 hex digest of the customer
id, the uuid4 hex string, and the current unix timestamp are produced by
library calls and are taken here as inputs; the method formats them into
the key without consulting any store. -/
def generate_api_key (customerHash : String) (ts : Nat) (uuidHex : String) : String :=
  "ak_" ++ customerHash.take 8 ++ "_" ++ lastChars (toString ts) 6
    ++ "_" ++ uuidHex.take 16

/-- Source method _get_plan_configuration: the per-plan rate limit and
feature set, with the trial configuration as the fallback for unknown
plan types. -/
def get_plan_configuration (planType : String) : Nat × List String :=
  if planType = "trial" then
    (1000, ["basic_analytics", "intent_scoring"])
  else if planType = "basic" then
    (10000, ["basic_analytics", "intent_scoring", "clustering"])
  else if planType = "pro" then
    (100000, ["basic_analytics", "intent_scoring", "clustering", "advanced_features"])
  else if planType = "enterprise" then
    (1000000, ["basic_analytics", "intent_scoring", "clustering",
      "advanced_features", "custom_models"])
  else
    (1000, ["basic_analytics", "intent_scoring"])

/-- DynamoDB put_item on the api-keys table: stores the record under its
key, replacing any record already stored under the same key. -/
def put_item (store : List APIKeyInfo) (info : APIKeyInfo) : List APIKeyInfo :=
  info :: store.filter (fun r => r.api_key ≠ info.api_key)

/-- Source method create_api_key: generate the key, derive the plan
configuration, build the record with trial status exactly for the trial
plan, and persist it with put_item.  The store is an input only of the
persistence step; key generation does not read it. -/
def create_api_key (store : List APIKeyInfo) (customer_id plan_type : String)
    (customerHash uuidHex created_at : String) (ts : Nat) :
    APIKeyInfo × List APIKeyInfo :=
  let key := generate_api_key customerHash ts uuidHex
  let cfg := get_plan_configuration plan_type
  let info : APIKeyInfo :=
    { api_key := key
      customer_id := customer_id
      status := if plan_type = "trial" then .trial else .active
      plan_type := plan_type
      created_at := created_at
      rate_limit := cfg.1
      features_enabled := cfg.2 }
  (info, put_item store info)

/-- Feature extraction raised, or returned the empty feature dict. -/
def featFailedOrEmpty (env : Env) : Prop :=
  (∃ e, env.featuresResult = .error e) ∨ env.featuresResult = Except.ok ([] : Dict)

/-- Concrete fixture: an active tenant on the basic plan. -/
def infoActive : APIKeyInfo :=
  { api_key := "ak_9f86d081_171717_123e4567e89b12d3"
    customer_id := "cust-1"
    status := .active
    plan_type := "basic"
    created_at := "2026-01-01T00:00:00"
    rate_limit := 1000
    features_enabled := ["basic_analytics", "intent_scoring", "clustering"] }

/-- Concrete fixture: a trial tenant. -/
def infoTrial : APIKeyInfo :=
  { infoActive with status := .trial, plan_type := "trial" }

/-- Concrete fixture: a suspended tenant. -/
def infoSuspended : APIKeyInfo :=
  { infoActive with status := .suspended }

/-- Concrete fixture: a fully populated event payload. -/
def edSample : EventData :=
  { eventId := some "evt-1"
    eventName := some "page_view"
    anonId := some "anon-1"
    sessionId := some "sess-1"
    platform := some "web" }

/-- Concrete fixture: every collaborator answers and succeeds, for an
active tenant well under its limit. -/
def envHappy : Env :=
  { validateResult := some infoActive
    metricsRead := .ok 200 (some 5)
    existingModels := true
    provisionClusteringFails := false
    provisionIntentFails := false
    ingestFails := false
    cacheSessionFails := false
    featuresResult := .ok [("engagement_score", 1)]
    clusterResult := .ok [("cluster_id", 3)]
    intentResult := .ok [("purchase_intent", 1)]
    updateMetricsRaises := false
    elapsedMs := 42 }

/-- Concrete fixture: the rate-limit read succeeds with a count under
the limit, and every later stage fails. -/
def envAllFail : Env :=
  { envHappy with
    existingModels := false
    provisionClusteringFails := true
    provisionIntentFails := true
    ingestFails := true
    cacheSessionFails := true
    featuresResult := .error "feature extraction failed"
    clusterResult := .error "clustering failed"
    intentResult := .error "intent scoring failed"
    updateMetricsRaises := true }

/-- Concrete fixture: the API key resolves to no tenant. -/
def envAuthNone : Env :=
  { envHappy with validateResult := none }

/-- Concrete fixture: the API key resolves to a suspended tenant. -/
def envSuspended : Env :=
  { envHappy with validateResult := some infoSuspended }

/-- Concrete fixture: the hourly counter has reached the limit. -/
def envOverLimit : Env :=
  { envHappy with metricsRead := .ok 200 (some 1000) }

/-- Concrete fixture: clustering raises while intent scoring succeeds. -/
def envClusterFail : Env :=
  { envHappy with clusterResult := .error "cluster backend down" }

/-- Concrete fixture: feature extraction raises, later scorers idle. -/
def envFeatFail : Env :=
  { envHappy with featuresResult := .error "feature extraction failed" }

/-- Concrete fixture: the Kinesis append raises. -/
def envIngestFail : Env :=
  { envHappy with ingestFails := true }

/-- Concrete fixture: a trial tenant with no provisioned models yet. -/
def envTrial : Env :=
  { envHappy with validateResult := some infoTrial, existingModels := false }

/-- Concrete fixture: insights read for the suspended tenant. -/
def ienvSuspended : InsightsEnv :=
  { validateResult := some infoSuspended
    userFeatures := [("engagement_score", 1)] }

/-- Concrete fixture: dashboard read for the suspended tenant. -/
def denvSuspended : DashboardEnv :=
  { validateResult := some infoSuspended
    cachedMetrics := { metrics := [("platform_web", 5), ("total_events", 7)] } }

/-- The key that create_api_key would mint from these library outputs. -/
def clashKey : String :=
  generate_api_key "9f86d081" 1717171717 "123e4567e89b12d3a456426614174000"

/-- Concrete fixture: a tenant already stored under clashKey. -/
def victimInfo : APIKeyInfo :=
  { api_key := clashKey
    customer_id := "victim-customer"
    status := .active
    plan_type := "pro"
    created_at := "2026-01-01T00:00:00"
    rate_limit := 100000
    features_enabled := ["basic_analytics", "intent_scoring", "clustering",
      "advanced_features"] }

/-- Concrete fixture: the durable store holding only victimInfo. -/
def storeWithClash : List APIKeyInfo := [victimInfo]

/-- The same environment with every locally-swallowed stage failing:
the Kinesis append, the session cache write, and both provisioning
tasks raise. -/
def withSwallowedFailures (env : Env) : Env :=
  { env with
    ingestFails := true
    cacheSessionFails := true
    provisionClusteringFails := true
    provisionIntentFails := true }

/-- The same environment with both provisioning tasks raising. -/
def withProvisionFailures (env : Env) : Env :=
  { env with
    provisionClusteringFails := true
    provisionIntentFails := true }

/-- An unknown key short-circuits at validation. -/
theorem process_event_unknown_key (env : Env) (ed : EventData)
    (hv : env.validateResult = none) :
    process_event env ed = (auth_fail_result ed, [.validateKey]) := by
  unfold process_event
  rw [hv]

/-- A key resolving to a tenant that is neither active nor trial
short-circuits at validation. -/
theorem process_event_bad_status (env : Env) (ed : EventData) (info : APIKeyInfo)
    (hv : env.validateResult = some info)
    (hs : ¬(info.status = .active ∨ info.status = .trial)) :
    process_event env ed = (auth_fail_result ed, [.validateKey]) := by
  unfold process_event
  rw [hv]
  simp only [if_neg hs]

/-- A rejected rate-limit check short-circuits before any later stage. -/
theorem process_event_rate_limited (env : Env) (ed : EventData) (info : APIKeyInfo)
    (hv : env.validateResult = some info)
    (hs : info.status = .active ∨ info.status = .trial)
    (hr : check_rate_limit env.metricsRead info.rate_limit = false) :
    process_event env ed = (rate_limit_fail_result ed, [.validateKey, .rateLimitRead]) := by
  unfold process_event
  rw [hv]
  simp only [if_pos hs, hr, Bool.false_eq_true, if_false]

/-- The result of an admitted request, in terms of the pipeline and
metrics stages. -/
theorem process_event_admitted_result (env : Env) (ed : EventData) (info : APIKeyInfo)
    (hv : env.validateResult = some info)
    (hs : info.status = .active ∨ info.status = .trial)
    (hr : check_rate_limit env.metricsRead info.rate_limit = true) :
    (process_event env ed).1 =
      { success := true
        anon_id := ed.anonId.getD "unknown"
        session_id := ed.sessionId.getD "unknown"
        features_extracted := (process_with_ml_pipeline env).1.features
        cluster_assignment := (process_with_ml_pipeline env).1.cluster
        intent_scores := (process_with_ml_pipeline env).1.intent_scores
        real_time_metrics := update_real_time_metrics env ed (process_with_ml_pipeline env).1
        processing_time_ms := env.elapsedMs
        error := none } := by
  unfold process_event
  rw [hv]
  simp only [if_pos hs, hr, if_true]

/-- The collaborator trace of an admitted request. -/
theorem process_event_admitted_trace (env : Env) (ed : EventData) (info : APIKeyInfo)
    (hv : env.validateResult = some info)
    (hs : info.status = .active ∨ info.status = .trial)
    (hr : check_rate_limit env.metricsRead info.rate_limit = true) :
    (process_event env ed).2 =
      [CallLabel.validateKey, CallLabel.rateLimitRead]
        ++ (if info.status = .trial then auto_provision_models_trace env else [])
        ++ [CallLabel.streamAppend, CallLabel.cacheSession]
        ++ (process_with_ml_pipeline env).2 ++ [CallLabel.metricsUpdate] := by
  unfold process_event
  rw [hv]
  simp only [if_pos hs, hr, if_true]

/-- The pipeline trace is either the lone feature-extraction call or the
feature-extraction call followed by the two scorer calls. -/
theorem mlp_trace_cases (env : Env) :
    (process_with_ml_pipeline env).2 = [CallLabel.featureExtract] ∨
    (process_with_ml_pipeline env).2 =
      [CallLabel.featureExtract, CallLabel.clusterPredict, CallLabel.intentPredict] := by
  unfold process_with_ml_pipeline
  cases hf : env.featuresResult with
  | error e => exact Or.inl rfl
  | ok f =>
    by_cases h : f = []
    · exact Or.inl (by simp [h])
    · cases hc : env.clusterResult <;> cases hi : env.intentResult <;>
        exact Or.inr (by simp [h])

/-- A successful rate-limit read below the limit admits the request. -/
theorem check_rate_limit_of_count_lt (env : Env) (limit cnt : Nat)
    (hc : readCount env.metricsRead = some cnt) (hlt : cnt < limit) :
    check_rate_limit env.metricsRead limit = true := by
  rcases hm : env.metricsRead with _ | ⟨sc, te⟩
  · rfl
  · rw [hm] at hc
    by_cases h200 : sc = 200
    · simp only [readCount, if_pos h200, Option.some.injEq] at hc
      simp only [check_rate_limit, if_pos h200, decide_eq_true_eq]
      rw [hc]; exact hlt
    · simp only [check_rate_limit, if_neg h200]

/-- A successful rate-limit read at or above the limit rejects. -/
theorem check_rate_limit_of_le_count (env : Env) (limit cnt : Nat)
    (hc : readCount env.metricsRead = some cnt) (hge : limit ≤ cnt) :
    check_rate_limit env.metricsRead limit = false := by
  rcases hm : env.metricsRead with _ | ⟨sc, te⟩
  · rw [hm] at hc
    simp [readCount] at hc
  · rw [hm] at hc
    by_cases h200 : sc = 200
    · simp only [readCount, if_pos h200, Option.some.injEq] at hc
      simp only [check_rate_limit, if_pos h200, decide_eq_false_iff_not]
      rw [hc]; exact Nat.not_lt.mpr hge
    · simp only [readCount, if_neg h200] at hc
      simp at hc

/-- Claim C1: whenever the API key resolves to a tenant whose status is
active or trial and the current-hour total-event counter read for the
tenant is below its rate limit, process_event returns success = true,
for every combination of outcomes of the ingestion, session-caching,
scoring, provisioning and metrics-update collaborators. -/
theorem claim_C1_admitted_success (env : Env) (ed : EventData) (info : APIKeyInfo)
    (cnt : Nat)
    (hv : env.validateResult = some info)
    (hs : info.status = .active ∨ info.status = .trial)
    (hc : readCount env.metricsRead = some cnt)
    (hlt : cnt < info.rate_limit) :
    (process_event env ed).1.success = true := by
  rw [process_event_admitted_result env ed info hv hs
    (check_rate_limit_of_count_lt env info.rate_limit cnt hc hlt)]

/-- Witness for claim C1: an active tenant with counter 5 of 1000, with
every later collaborator failing, still gets success = true. -/
theorem claim_C1_witness :
    (process_event envAllFail edSample).1.success = true :=
  claim_C1_admitted_success envAllFail edSample infoActive 5 rfl (Or.inl rfl) rfl
    (by decide)

/-- Claim C2: when the API key resolves to no tenant, or to a tenant
that is neither active nor trial, process_event returns success = false
with the auth reason, and the trace holds no rate-limit read, no stream
append, no scoring call and no metrics update. -/
theorem claim_C2_auth_reject (env : Env) (ed : EventData)
    (h : env.validateResult = none ∨
      ∃ info, env.validateResult = some info
        ∧ info.status ≠ .active ∧ info.status ≠ .trial) :
    (process_event env ed).1.success = false
    ∧ (process_event env ed).1.error = some "Invalid or inactive API key"
    ∧ (process_event env ed).2.count .rateLimitRead = 0
    ∧ (process_event env ed).2.count .streamAppend = 0
    ∧ (process_event env ed).2.count .featureExtract = 0
    ∧ (process_event env ed).2.count .clusterPredict = 0
    ∧ (process_event env ed).2.count .intentPredict = 0
    ∧ (process_event env ed).2.count .metricsUpdate = 0 := by
  have hshort : process_event env ed = (auth_fail_result ed, [.validateKey]) := by
    rcases h with hv | ⟨info, hv, h1, h2⟩
    · exact process_event_unknown_key env ed hv
    · exact process_event_bad_status env ed info hv (by rintro (h | h) <;> simp_all)
  rw [hshort]
  exact ⟨rfl, rfl, rfl, rfl, rfl, rfl, rfl, rfl⟩

/-- Witness for claim C2: an unknown key is rejected with the auth
reason and an empty collaborator trace past validation. -/
theorem claim_C2_witness :
    (process_event envAuthNone edSample).1.error = some "Invalid or inactive API key"
    ∧ (process_event envAuthNone edSample).2.count .streamAppend = 0 :=
  ⟨(claim_C2_auth_reject envAuthNone edSample (Or.inl rfl)).2.1,
   (claim_C2_auth_reject envAuthNone edSample (Or.inl rfl)).2.2.2.1⟩

/-- Claim C3: a tenant whose counter read comes back at or above its
rate limit is rejected with the rate-limit reason and no stream append;
and in any request whatsoever, an append happens only if that request
passed validation with an active-or-trial tenant and passed the
rate-limit check. -/
theorem claim_C3_rate_limited_no_append (env : Env) (ed : EventData) :
    (∀ info cnt, env.validateResult = some info →
      (info.status = .active ∨ info.status = .trial) →
      readCount env.metricsRead = some cnt →
      info.rate_limit ≤ cnt →
      (process_event env ed).1.success = false
      ∧ (process_event env ed).1.error = some "Rate limit exceeded"
      ∧ CallLabel.streamAppend ∉ (process_event env ed).2)
    ∧ (CallLabel.streamAppend ∈ (process_event env ed).2 →
      ∃ info, env.validateResult = some info
        ∧ (info.status = .active ∨ info.status = .trial)
        ∧ check_rate_limit env.metricsRead info.rate_limit = true) := by
  constructor
  · intro info cnt hv hs hc hge
    rw [process_event_rate_limited env ed info hv hs
      (check_rate_limit_of_le_count env info.rate_limit cnt hc hge)]
    exact ⟨rfl, rfl, by simp⟩
  · intro hmem
    cases hv : env.validateResult with
    | none =>
      rw [process_event_unknown_key env ed hv] at hmem
      simp at hmem
    | some info =>
      by_cases hs : info.status = .active ∨ info.status = .trial
      · cases hcr : check_rate_limit env.metricsRead info.rate_limit with
        | true => exact ⟨info, rfl, hs, hcr⟩
        | false =>
          rw [process_event_rate_limited env ed info hv hs hcr] at hmem
          simp at hmem
      · rw [process_event_bad_status env ed info hv hs] at hmem
        simp at hmem

/-- Witness for claim C3: counter 1000 of limit 1000 is rejected with
the rate-limit reason. -/
theorem claim_C3_witness :
    (process_event envOverLimit edSample).1.error = some "Rate limit exceeded" :=
  ((claim_C3_rate_limited_no_append envOverLimit edSample).1 infoActive 1000 rfl
    (Or.inl rfl) rfl (by decide)).2.1

/-- Claim C4: the rate-limit check admits exactly when the count the
metrics read yields is below the limit, and admits whenever the read
yields no count (an errored call, an unparsable body, or a non-200
response); a 200 response missing the total-events entry yields the
count 0, which the source treats as a usable count. -/
theorem claim_C4_rate_limit_fail_open (r : RateMetricsRead) (limit : Nat) :
    check_rate_limit r limit =
      (match readCount r with
       | some c => decide (c < limit)
       | none => true) := by
  cases r with
  | err => rfl
  | ok sc te =>
    by_cases h200 : sc = 200 <;> simp [check_rate_limit, readCount, h200]

/-- When feature extraction raises or yields the empty feature dict,
the pipeline invokes no scorer and returns everything empty. -/
theorem mlp_feature_failed_empty (env : Env) (hf : featFailedOrEmpty env) :
    (process_with_ml_pipeline env).2 = [CallLabel.featureExtract]
    ∧ (process_with_ml_pipeline env).1.cluster = []
    ∧ (process_with_ml_pipeline env).1.intent_scores = [] := by
  rcases hf with ⟨e, he⟩ | he <;>
    simp [process_with_ml_pipeline, he]

/-- Claim C5: the pipeline trace always opens with the feature
extraction call; when feature extraction raises or yields no features,
neither scorer is invoked and both pipeline fields are empty; and an
admitted request with such a scoring run (and a successful ingestion)
still returns success = true with both result fields empty and no
scorer call in its trace. -/
theorem claim_C5_feature_extraction_gates_scorers (env : Env) (ed : EventData)
    (info : APIKeyInfo) :
    ((process_with_ml_pipeline env).2.head? = some CallLabel.featureExtract)
    ∧ (featFailedOrEmpty env →
        (process_with_ml_pipeline env).2 = [CallLabel.featureExtract]
        ∧ (process_with_ml_pipeline env).1.cluster = []
        ∧ (process_with_ml_pipeline env).1.intent_scores = [])
    ∧ (featFailedOrEmpty env →
       env.validateResult = some info →
       (info.status = .active ∨ info.status = .trial) →
       check_rate_limit env.metricsRead info.rate_limit = true →
       env.ingestFails = false →
        (process_event env ed).1.success = true
        ∧ (process_event env ed).1.cluster_assignment = []
        ∧ (process_event env ed).1.intent_scores = []
        ∧ CallLabel.clusterPredict ∉ (process_event env ed).2
        ∧ CallLabel.intentPredict ∉ (process_event env ed).2) := by
  refine ⟨?_, mlp_feature_failed_empty env, ?_⟩
  · rcases mlp_trace_cases env with h | h <;> rw [h] <;> rfl
  · intro hf hv hs hr _
    obtain ⟨ht, hcl, hin⟩ := mlp_feature_failed_empty env hf
    rw [process_event_admitted_result env ed info hv hs hr,
      process_event_admitted_trace env ed info hv hs hr]
    refine ⟨rfl, hcl, hin, ?_, ?_⟩ <;>
      by_cases hst : info.status = .trial <;>
        simp [hst, ht, auto_provision_models_trace]

/-- Witness for claim C5: feature extraction raises for an admitted
request; the request succeeds with empty scorer fields and no scorer
call in the trace. -/
theorem claim_C5_witness :
    (process_event envFeatFail edSample).1.success = true
    ∧ (process_event envFeatFail edSample).1.intent_scores = []
    ∧ CallLabel.clusterPredict ∉ (process_event envFeatFail edSample).2 := by
  obtain ⟨h1, _, h3, h4, _⟩ :=
    (claim_C5_feature_extraction_gates_scorers envFeatFail edSample infoActive).2.2
      (Or.inl ⟨"feature extraction failed", rfl⟩) rfl (Or.inl rfl) rfl rfl
  exact ⟨h1, h3, h4⟩

/-- Counterexample to claim C6: for this concrete admitted request the
clustering call fails while the intent-scoring call succeeds, yet the
final result carries no intent scores (the pipeline-wide handler
discards the successful sibling branch too); no error reaches the
caller. -/
theorem claim_C6_counterexample :
    envClusterFail.clusterResult = Except.error "cluster backend down"
    ∧ envClusterFail.intentResult = Except.ok [("purchase_intent", 1)]
    ∧ (process_event envClusterFail edSample).1.intent_scores = []
    ∧ (process_event envClusterFail edSample).1.success = true
    ∧ (process_event envClusterFail edSample).1.error = none :=
  ⟨rfl, rfl, rfl, rfl, rfl⟩

/-- Claim C6 amended: no scoring failure ever propagates an error to
the caller, but the three calls are not individually isolated: when the
clustering or the intent-scoring call fails, the single pipeline handler
returns all three fields empty, discarding any successful sibling
result, and an admitted request still returns success = true. -/
theorem claim_C6_scoring_failure_empties_pipeline (env : Env) (ed : EventData)
    (hfail : (∃ e, env.clusterResult = .error e) ∨ (∃ e, env.intentResult = .error e)) :
    (process_with_ml_pipeline env).1 = ⟨[], [], []⟩
    ∧ (∀ info, env.validateResult = some info →
        (info.status = .active ∨ info.status = .trial) →
        check_rate_limit env.metricsRead info.rate_limit = true →
        (process_event env ed).1.success = true
        ∧ (process_event env ed).1.error = none
        ∧ (process_event env ed).1.features_extracted = []
        ∧ (process_event env ed).1.cluster_assignment = []
        ∧ (process_event env ed).1.intent_scores = []) := by
  have hmlp : (process_with_ml_pipeline env).1 = ⟨[], [], []⟩ := by
    unfold process_with_ml_pipeline
    cases hfe : env.featuresResult with
    | error e => rfl
    | ok f =>
      by_cases hemp : f = []
      · simp [hemp]
      · rcases hfail with ⟨e, he⟩ | ⟨e, he⟩ <;>
          cases hc : env.clusterResult <;> cases hi : env.intentResult <;>
            simp_all
  refine ⟨hmlp, fun info hv hs hr => ?_⟩
  rw [process_event_admitted_result env ed info hv hs hr]
  exact ⟨rfl, rfl, by rw [hmlp], by rw [hmlp], by rw [hmlp]⟩

/-- Witness for claim C6 amended: with the clustering call failing, the
pipeline result is entirely empty. -/
theorem claim_C6_witness :
    (process_with_ml_pipeline envClusterFail).1 = ⟨[], [], []⟩
    ∧ (process_event envClusterFail edSample).1.success = true :=
  ⟨(claim_C6_scoring_failure_empties_pipeline envClusterFail edSample
      (Or.inl ⟨"cluster backend down", rfl⟩)).1,
   ((claim_C6_scoring_failure_empties_pipeline envClusterFail edSample
      (Or.inl ⟨"cluster backend down", rfl⟩)).2 infoActive rfl (Or.inl rfl) rfl).1⟩

/-- Counterexample to claim C7: for this concrete request the Kinesis
append inside the ingestion stage raises, yet process_event returns
success = true with no error field, not the success = false result the
claim requires for exceptions in that stage. -/
theorem claim_C7_counterexample :
    envIngestFail.ingestFails = true
    ∧ (process_event envIngestFail edSample).1.success = true
    ∧ (process_event envIngestFail edSample).1.error = none :=
  ⟨rfl, rfl, rfl⟩

/-- Claim C7 amended: exceptions raised inside the ingestion,
session-caching, provisioning, scoring and metrics stages are caught
inside each stage, not at the orchestrator boundary: the admitted
request proceeds, returns success = true with no error and with the
measured elapsed time, and its outcome is unchanged when the ingestion,
session-caching and provisioning collaborators raise; no exception
reaches the caller. -/
theorem claim_C7_stage_failures_recovered (env : Env) (ed : EventData)
    (info : APIKeyInfo)
    (hv : env.validateResult = some info)
    (hs : info.status = .active ∨ info.status = .trial)
    (hr : check_rate_limit env.metricsRead info.rate_limit = true) :
    (process_event env ed).1.success = true
    ∧ (process_event env ed).1.error = none
    ∧ (process_event env ed).1.processing_time_ms = env.elapsedMs
    ∧ process_event (withSwallowedFailures env) ed = process_event env ed := by
  rw [process_event_admitted_result env ed info hv hs hr]
  exact ⟨rfl, rfl, rfl, rfl⟩

/-- Witness for claim C7 amended: the request with the failing Kinesis
append reports the measured elapsed time and succeeds. -/
theorem claim_C7_witness :
    (process_event envIngestFail edSample).1.success = true
    ∧ (process_event envIngestFail edSample).1.processing_time_ms
        = envIngestFail.elapsedMs := by
  obtain ⟨h1, _, h3, _⟩ :=
    claim_C7_stage_failures_recovered envIngestFail edSample infoActive rfl
      (Or.inl rfl) rfl
  exact ⟨h1, h3⟩

/-- Counterexample to claim C8: create_api_key mints a key equal to one
already stored (the generation never consults the store), and the
stored tenant under that key is silently overwritten by the new record,
so generation is not collision-checked against existing keys. -/
theorem claim_C8_counterexample :
    ((create_api_key storeWithClash "new-customer" "trial" "9f86d081"
        "123e4567e89b12d3a456426614174000" "2026-02-03T00:00:00" 1717171717).1.api_key
      ∈ storeWithClash.map (fun r => r.api_key))
    ∧ ((create_api_key storeWithClash "new-customer" "trial" "9f86d081"
        "123e4567e89b12d3a456426614174000" "2026-02-03T00:00:00" 1717171717).2.map
          (fun r => r.customer_id) = ["new-customer"]) := by
  constructor
  · exact List.mem_singleton.mpr rfl
  · rfl

/-- Claim C8 amended: the minted key is a pure format of the customer
hash, timestamp and uuid, independent of the existing keys in the store
(no collision check); the record status is trial exactly for the trial
plan and active otherwise, with the plan-derived rate limit and feature
set (trial configuration for unknown plan types). -/
theorem claim_C8_create_key_fields (store store2 : List APIKeyInfo)
    (cid plan hash uuid ca : String) (ts : Nat) :
    (create_api_key store cid plan hash uuid ca ts).1.api_key
        = generate_api_key hash ts uuid
    ∧ (create_api_key store cid plan hash uuid ca ts).1
        = (create_api_key store2 cid plan hash uuid ca ts).1
    ∧ (create_api_key store cid plan hash uuid ca ts).1.status
        = (if plan = "trial" then .trial else .active)
    ∧ (create_api_key store cid plan hash uuid ca ts).1.rate_limit
        = (get_plan_configuration plan).1
    ∧ (create_api_key store cid plan hash uuid ca ts).1.features_enabled
        = (get_plan_configuration plan).2 :=
  ⟨rfl, rfl, rfl, rfl, rfl⟩

/-- Counterexample to claim C9: in this concrete trial-tenant request
the provisioning work sits in the request path before the stream append
and before the metrics update, not after metrics aggregation as the
claim states; the request awaits it like any other sequential stage. -/
theorem claim_C9_counterexample :
    CallLabel.provisionClustering ∈ (process_event envTrial edSample).2
    ∧ (process_event envTrial edSample).2.indexOf CallLabel.provisionClustering
        < (process_event envTrial edSample).2.indexOf CallLabel.streamAppend
    ∧ (process_event envTrial edSample).2.indexOf CallLabel.provisionClustering
        < (process_event envTrial edSample).2.indexOf CallLabel.metricsUpdate := by
  decide

/-- Claim C9 amended: provisioning appears in a request trace only when
the key resolved to a trial tenant (and the request was admitted); for
an admitted trial tenant it runs between the rate-limit check and the
stream append, hence before scoring and before metrics aggregation; and
provisioning failures leave the request outcome unchanged. -/
theorem claim_C9_provisioning_trial_only (env : Env) (ed : EventData) :
    ((CallLabel.checkModels ∈ (process_event env ed).2
      ∨ CallLabel.provisionClustering ∈ (process_event env ed).2
      ∨ CallLabel.provisionIntent ∈ (process_event env ed).2) →
      ∃ info, env.validateResult = some info ∧ info.status = .trial)
    ∧ (∀ info, env.validateResult = some info → info.status = .trial →
        check_rate_limit env.metricsRead info.rate_limit = true →
        ∃ rest, (process_event env ed).2
            = CallLabel.validateKey :: CallLabel.rateLimitRead
                :: CallLabel.checkModels :: rest
          ∧ CallLabel.streamAppend ∈ rest ∧ CallLabel.metricsUpdate ∈ rest)
    ∧ process_event (withProvisionFailures env) ed = process_event env ed := by
  refine ⟨?_, ?_, rfl⟩
  · intro hmem
    cases hv : env.validateResult with
    | none =>
      rw [process_event_unknown_key env ed hv] at hmem
      simp at hmem
    | some info =>
      by_cases hs : info.status = .active ∨ info.status = .trial
      · cases hcr : check_rate_limit env.metricsRead info.rate_limit with
        | false =>
          rw [process_event_rate_limited env ed info hv hs hcr] at hmem
          simp at hmem
        | true =>
          by_cases hst : info.status = .trial
          · exact ⟨info, rfl, hst⟩
          · rw [process_event_admitted_trace env ed info hv hs hcr] at hmem
            rcases mlp_trace_cases env with h | h <;>
              rw [h] at hmem <;> simp [hst] at hmem
      · rw [process_event_bad_status env ed info hv hs] at hmem
        simp at hmem
  · intro info hv hst hcr
    rw [process_event_admitted_trace env ed info hv (Or.inr hst) hcr, if_pos hst]
    unfold auto_provision_models_trace
    refine ⟨(if env.existingModels then []
        else [CallLabel.provisionClustering, CallLabel.provisionIntent])
      ++ [CallLabel.streamAppend, CallLabel.cacheSession]
      ++ (process_with_ml_pipeline env).2 ++ [CallLabel.metricsUpdate],
      ?_, ?_, ?_⟩ <;> simp

/-- Witness for claim C9 amended: the admitted trial-tenant request has
provisioning third in its trace, with the append and the metrics update
following it. -/
theorem claim_C9_witness :
    ∃ rest, (process_event envTrial edSample).2
        = CallLabel.validateKey :: CallLabel.rateLimitRead
            :: CallLabel.checkModels :: rest
      ∧ CallLabel.streamAppend ∈ rest ∧ CallLabel.metricsUpdate ∈ rest :=
  (claim_C9_provisioning_trial_only envTrial edSample).2.1 infoTrial rfl rfl rfl

/-- Claim C10: the two read operations check only that the key resolves
to a tenant record; a tenant whose status is inactive or suspended is
rejected by process_event with the auth reason, yet both read paths
answer with their full payload and no error. -/
theorem claim_C10_read_paths_skip_status_check (info : APIKeyInfo)
    (ienv : InsightsEnv) (denv : DashboardEnv) (env : Env) (ed : EventData)
    (anon_id tw : String)
    (hs : info.status = .inactive ∨ info.status = .suspended)
    (hi : ienv.validateResult = some info)
    (hd : denv.validateResult = some info)
    (he : env.validateResult = some info) :
    (process_event env ed).1.success = false
    ∧ (process_event env ed).1.error = some "Invalid or inactive API key"
    ∧ (get_user_insights ienv anon_id tw).error = none
    ∧ (get_user_insights ienv anon_id tw).user_features = ienv.userFeatures
    ∧ (get_user_insights ienv anon_id tw).insights
        = some (generate_user_insights ienv.userFeatures ienv.userClusterInfo
            ienv.userIntentData)
    ∧ (get_real_time_dashboard denv).error = none
    ∧ (get_real_time_dashboard denv).status = some "active"
    ∧ (get_real_time_dashboard denv).platform_breakdown
        = get_platform_breakdown denv.cachedMetrics.metrics := by
  have hns : ¬(info.status = .active ∨ info.status = .trial) := by
    rcases hs with h | h <;> rw [h] <;> rintro (hc | hc) <;> exact absurd hc (by simp)
  rw [process_event_bad_status env ed info he hns]
  unfold get_user_insights get_real_time_dashboard
  rw [hi, hd]
  exact ⟨rfl, rfl, rfl, rfl, rfl, rfl, rfl, rfl⟩

/-- Witness for claim C10: the suspended tenant is rejected by event
processing but served by both read paths. -/
theorem claim_C10_witness :
    (process_event envSuspended edSample).1.success = false
    ∧ (get_user_insights ienvSuspended "anon-1" "7d").error = none
    ∧ (get_real_time_dashboard denvSuspended).status = some "active" := by
  obtain ⟨h1, _, h3, _, _, _, h7, _⟩ :=
    claim_C10_read_paths_skip_status_check infoSuspended ienvSuspended
      denvSuspended envSuspended edSample "anon-1" "7d" (Or.inr rfl) rfl rfl rfl
  exact ⟨h1, h3, h7⟩

end UnifiedAPI
